import Mathlib

/-!
Shallow embedding of the math-phi4 backend (FastAPI + SQLAlchemy) in Lean 4.

Source files embedded:
  - src/backend/app/models.py          (tables users, chat_sessions, chats)
  - src/backend/app/routers/users.py   (signup)
  - src/backend/app/routers/chats.py   (session and message handlers)

The relational database is a record of three row lists plus id counters;
SQLAlchemy queries become list operations (filter / find? / insertion sort by
timestamp for ORDER BY).  The inference collaborator (llama_cpp `Llama`) is a
parameter mapping the prompt message list to an outcome; the auth collaborator
is abstracted by passing the resolved caller row directly, as every handler
receives it via `Depends(get_current_user)`.  Wall-clock timestamps are a
`now : Nat` parameter.  Database-level failures (commit errors) are not
modelled: the pure embedding covers the non-exceptional persistence paths.
-/

/-- Row of table `users` (models.py, class User). -/
structure UserRow where
  id : Nat
  name : String
  email : String
  password : String
  bio : Option String
  explanation_level : Option Int
  deriving Repr, DecidableEq

/-- Row of table `chat_sessions` (models.py, class ChatSession). -/
structure ChatSessionRow where
  id : Nat
  user_id : Nat
  title : String
  created_at : Nat
  deriving Repr, DecidableEq

/-- Row of table `chats` (models.py, class Chat). -/
structure ChatRow where
  id : Nat
  session_id : Nat
  question : String
  answer : String
  timestamp : Nat
  deriving Repr, DecidableEq

/-- The relational database state: the three tables plus the primary-key
generators of each table. -/
structure DB where
  users : List UserRow
  sessions : List ChatSessionRow
  chats : List ChatRow
  nextUserId : Nat
  nextSessionId : Nat
  nextChatId : Nat
  deriving Repr, DecidableEq

/-- An HTTPException as raised by the handlers: status code plus detail. -/
structure ApiError where
  status_code : Nat
  detail : String
  deriving Repr, DecidableEq

/-- The shared ownership-failure error of chats.py: every session handler
raises HTTPException(404, "Session not found or access denied.") when the
session does not exist or belongs to another user. -/
def sessionNotFoundError : ApiError :=
  { status_code := 404, detail := "Session not found or access denied." }

/-- One element of the `messages` list sent to `llm.create_chat_completion`. -/
structure ChatMessage where
  role : String
  content : String
  deriving Repr, DecidableEq

/-- Outcome of one `llm.create_chat_completion` call, as the handler observes
it: a structurally valid completion carrying a content string, a completion
with an invalid structure, or a raised exception carrying its message. -/
inductive LLMOutcome where
  | ok (content : String)
  | malformed
  | raises (message : String)
  deriving Repr, DecidableEq

/-- SYSTEM_PROMPT_CONCISE of chats.py. -/
def SYSTEM_PROMPT_CONCISE : String :=
  "You are a math tutor AI. Provide the final answer directly and clearly. Only include the absolute minimum key steps needed to reach the solution. Avoid explanations, analogies, or conversational filler. Prefix the final answer with \x27Final Answer:\x27."

/-- SYSTEM_PROMPT_DETAILED of chats.py. -/
def SYSTEM_PROMPT_DETAILED : String :=
  "You are a helpful AI math tutor. Explain concepts clearly. Before providing the final answer, outline your reasoning step-by-step as a \x27chain-of-thought\x27. Explain *why* each step is taken. Clearly mark the final answer by prefixing it with \x27Final Answer:\x27. Maintain a slightly conversational tone."

/-- SYSTEM_PROMPT_ELABORATE of chats.py. -/
def SYSTEM_PROMPT_ELABORATE : String :=
  "You are an explanatory AI math tutor. Your goal is clarity and context. 1. Provide a detailed step-by-step (\x27chain-of-thought\x27) solution, briefly explaining the mathematical principle behind the main steps. 2. Briefly mention the core mathematical concepts being used (e.g., \x27This involves solving a linear equation\x27). 3. Optionally, point out one common mistake related to this type of problem. 4. Clearly mark the final numerical result by prefixing it with \x27Final Answer:\x27. Maintain an encouraging tone."

/-- SYSTEM_PROMPT_COMPREHENSIVE of chats.py. -/
def SYSTEM_PROMPT_COMPREHENSIVE : String :=
  "You are a comprehensive AI math tutor. Your goal is to ensure deep understanding. For the given problem: 1. Provide a highly detailed step-by-step (\x27chain-of-thought\x27) solution, explaining the purpose and the mathematical principle behind each step (e.g., \x27applying the additive inverse property\x27). 2. Discuss the underlying mathematical concepts involved in detail (e.g., define linear equations, properties of equality, inverse operations). 3. Discuss potential alternative approaches or common mistakes related to this type of problem in detail, if applicable. 4. Clearly mark the final numerical result by prefixing it with \x27Final Answer:\x27. Be thorough and educational."

/-- get_system_prompt_for_user of chats.py (lines 91-124).  The column value
is an SQL integer or NULL, so the embedded `raw_level` is `Option Int`; `None`
and every value outside the four-entry `prompt_mapping` fall back to the
default level 2 (Detailed). -/
def get_system_prompt_for_user (user : UserRow) : String :=
  match user.explanation_level with
  | none => SYSTEM_PROMPT_DETAILED
  | some l =>
      if l = 1 then SYSTEM_PROMPT_CONCISE
      else if l = 2 then SYSTEM_PROMPT_DETAILED
      else if l = 3 then SYSTEM_PROMPT_ELABORATE
      else if l = 4 then SYSTEM_PROMPT_COMPREHENSIVE
      else SYSTEM_PROMPT_DETAILED

/-- The ownership query shared by every session handler of chats.py:
db.query(ChatSession).filter(ChatSession.id == session_id,
ChatSession.user_id == user.id).first(). -/
def findOwnedSession (db : DB) (sid callerId : Nat) : Option ChatSessionRow :=
  db.sessions.find? (fun s => s.id == sid && s.user_id == callerId)

/-- Ordering relation of `ORDER BY chats.timestamp ASC`. -/
def chatTsLE (a b : ChatRow) : Prop := a.timestamp ≤ b.timestamp

instance : DecidableRel chatTsLE := fun a b => Nat.decLe a.timestamp b.timestamp

instance : IsTotal ChatRow chatTsLE :=
  ⟨fun a b => Nat.le_total a.timestamp b.timestamp⟩

instance : IsTrans ChatRow chatTsLE :=
  ⟨fun _ _ _ hab hbc => Nat.le_trans hab hbc⟩

/-- Sorting of a chats query result by `ORDER BY timestamp ASC`. -/
def sortChatsByTs (l : List ChatRow) : List ChatRow :=
  List.insertionSort chatTsLE l

/-- db.query(Chat).filter(Chat.session_id == session_id): the chat rows of one
session, in table order. -/
def sessionChats (db : DB) (sid : Nat) : List ChatRow :=
  db.chats.filter (fun c => c.session_id == sid)

/-- create_session of chats.py (lines 130-159): counts the caller's sessions,
titles the new one sequentially, inserts and returns it. -/
def create_session (now : Nat) (db : DB) (user : UserRow) :
    DB × Except ApiError ChatSessionRow :=
  let session_count := (db.sessions.filter (fun s => s.user_id == user.id)).length
  let next_session_title := "Chat " ++ toString (session_count + 1)
  let new_session : ChatSessionRow :=
    { id := db.nextSessionId, user_id := user.id, title := next_session_title,
      created_at := now }
  ({ db with sessions := db.sessions ++ [new_session],
             nextSessionId := db.nextSessionId + 1 },
   Except.ok new_session)

/-- get_session_history of chats.py (lines 182-222): ownership check, then
db.query(Chat).filter(session_id).order_by(Chat.timestamp.asc()).limit(limit).
The failure path returns 404 and leaves the database untouched. -/
def get_session_history (db : DB) (user : UserRow) (sid : Nat) (limit : Nat) :
    DB × Except ApiError (List ChatRow) :=
  match findOwnedSession db sid user.id with
  | none => (db, Except.error sessionNotFoundError)
  | some _ =>
      (db, Except.ok ((sortChatsByTs (sessionChats db sid)).take limit))

/-- update_session_title of chats.py (lines 341-367): ownership check, then
`session.title = update_data.title; db.commit()`.  The ORM updates the single
matched row; with unique primary keys this is the conditional map below. -/
def update_session_title (db : DB) (user : UserRow) (sid : Nat)
    (newTitle : String) : DB × Except ApiError ChatSessionRow :=
  match findOwnedSession db sid user.id with
  | none => (db, Except.error sessionNotFoundError)
  | some s =>
      ({ db with sessions := db.sessions.map (fun t =>
            if t.id == sid && t.user_id == user.id
            then { t with title := newTitle } else t) },
       Except.ok { s with title := newTitle })

/-- delete_session of chats.py (lines 370-394): ownership check, then
db.delete(session); the relationship cascade "all, delete-orphan" of
models.py also removes every Chat row of the session. -/
def delete_session (db : DB) (user : UserRow) (sid : Nat) :
    DB × Except ApiError Unit :=
  match findOwnedSession db sid user.id with
  | none => (db, Except.error sessionNotFoundError)
  | some s =>
      ({ db with sessions := db.sessions.filter (fun t => !(t.id == s.id)),
                 chats := db.chats.filter (fun c => !(c.session_id == s.id)) },
       Except.ok ())

/-- The history-window query of add_message_to_session (chats.py lines
252-259): filter by session, ORDER BY timestamp ASC, LIMIT 10. -/
def recentHistoryFor (db : DB) (sid : Nat) : List ChatRow :=
  (sortChatsByTs (sessionChats db sid)).take 10

/-- The history-expansion loop of add_message_to_session (chats.py lines
268-271): each exchange whose question and answer are both truthy (non-empty)
becomes a user turn followed by an assistant turn; others are skipped. -/
def expandHistory : List ChatRow → List ChatMessage
  | [] => []
  | c :: rest =>
      if c.question ≠ "" ∧ c.answer ≠ "" then
        ChatMessage.mk "user" c.question ::
          ChatMessage.mk "assistant" c.answer :: expandHistory rest
      else expandHistory rest

/-- The `messages` list built by add_message_to_session (chats.py lines
267-272) and passed to llm.create_chat_completion: system prompt, expanded
history window, then the new question as the final user turn. -/
def promptFor (db : DB) (user : UserRow) (sid : Nat) (question : String) :
    List ChatMessage :=
  ChatMessage.mk "system" (get_system_prompt_for_user user) ::
    (expandHistory (recentHistoryFor db sid) ++ [ChatMessage.mk "user" question])

/-- The assistant_response computation of add_message_to_session (chats.py
lines 274-307): a valid completion with truthy content is stripped and used;
a completion with falsy or missing content yields the apology placeholder; a
raised exception yields the error-details placeholder. -/
def answerFromOutcome : LLMOutcome → String
  | LLMOutcome.ok content =>
      if content = "" then
        "Sorry, I encountered an issue generating a response. Please try again."
      else content.trim
  | LLMOutcome.malformed =>
      "Sorry, I encountered an issue generating a response. Please try again."
  | LLMOutcome.raises message =>
      "Error during response generation. Please check logs. (Details: "
        ++ message ++ ")"

/-- add_message_to_session of chats.py (lines 225-338): ownership check,
prompt construction, inference call, then persistence of the new Chat row
with the question and the (possibly placeholder) answer. -/
def add_message_to_session (llm : List ChatMessage → LLMOutcome) (now : Nat)
    (db : DB) (user : UserRow) (sid : Nat) (question : String) :
    DB × Except ApiError ChatRow :=
  match findOwnedSession db sid user.id with
  | none => (db, Except.error sessionNotFoundError)
  | some _ =>
      let assistant_response :=
        answerFromOutcome (llm (promptFor db user sid question))
      let new_chat_record : ChatRow :=
        { id := db.nextChatId, session_id := sid, question := question,
          answer := assistant_response, timestamp := now }
      ({ db with chats := db.chats ++ [new_chat_record],
                 nextChatId := db.nextChatId + 1 },
       Except.ok new_chat_record)

/-- The signup request body (users.py, class UserSignup): bio and
explanation_level are optional. -/
structure UserSignup where
  name : String
  email : String
  password : String
  bio : Option String
  explanation_level : Option Int
  deriving Repr, DecidableEq

/-- signup of users.py (lines 46-94): duplicate-email check, hashed-password
User insertion, then creation of the default ChatSession titled from the new
user's session count.  The password hasher is the external auth collaborator,
passed as a function. -/
def signup (hash_password : String → String) (now : Nat) (db : DB)
    (user : UserSignup) : DB × Except ApiError String :=
  match db.users.find? (fun u => u.email == user.email) with
  | some _ => (db, Except.error { status_code := 400,
                                  detail := "Email already registered" })
  | none =>
      let new_user : UserRow :=
        { id := db.nextUserId, name := user.name, email := user.email,
          password := hash_password user.password, bio := user.bio,
          explanation_level :=
            some (match user.explanation_level with
                  | some l => l
                  | none => 2) }
      let db1 : DB :=
        { db with users := db.users ++ [new_user],
                  nextUserId := db.nextUserId + 1 }
      let session_count :=
        (db1.sessions.filter (fun s => s.user_id == new_user.id)).length
      let first_session_title := "Chat " ++ toString (session_count + 1)
      let first_session : ChatSessionRow :=
        { id := db1.nextSessionId, user_id := new_user.id,
          title := first_session_title, created_at := now }
      ({ db1 with sessions := db1.sessions ++ [first_session],
                  nextSessionId := db1.nextSessionId + 1 },
       Except.ok "User created successfully")

/-!
Concrete fixtures used by witnesses and counterexamples.
-/

/-- A concrete caller row with explanation level 2. -/
def userAlice : UserRow :=
  { id := 1, name := "Alice", email := "alice@example.com", password := "hA",
    bio := none, explanation_level := some 2 }

/-- A concrete second user row, owner of the fixture session. -/
def userBob : UserRow :=
  { id := 2, name := "Bob", email := "bob@example.com", password := "hB",
    bio := none, explanation_level := some 1 }

/-- A session owned by Bob (user 2), not by Alice (user 1). -/
def sessionOfBob : ChatSessionRow :=
  { id := 1, user_id := 2, title := "Chat 1", created_at := 0 }

/-- Database fixture for the ownership-failure claims: a session exists with
id 1 but is owned by user 2, not by the caller Alice (user 1). -/
def dbUnowned : DB :=
  { users := [userAlice, userBob], sessions := [sessionOfBob], chats := [],
    nextUserId := 3, nextSessionId := 2, nextChatId := 1 }

/-- Helper: when every session either has a different id or a different owner,
the ownership query of the handlers finds nothing. -/
theorem findOwnedSession_eq_none (db : DB) (sid callerId : Nat)
    (h : ∀ s ∈ db.sessions, s.id = sid → s.user_id ≠ callerId) :
    findOwnedSession db sid callerId = none := by
  unfold findOwnedSession
  rw [List.find?_eq_none]
  intro s hs
  simp only [Bool.and_eq_true, beq_iff_eq, not_and]
  intro h1 h2
  exact h s hs h1 h2

/-- C1: for every caller and session id such that no session with that id is
owned by the caller (it does not exist, or its owner differs), each of the
four session operations (history, rename, delete, add message) fails with the
single generic not-found/access-denied error of status 404 and leaves the
database state unchanged. -/
theorem C1_unowned_session_ops_fail (db : DB) (caller : UserRow) (sid : Nat)
    (limit : Nat) (newTitle question : String)
    (llm : List ChatMessage → LLMOutcome) (now : Nat)
    (h : ∀ s ∈ db.sessions, s.id = sid → s.user_id ≠ caller.id) :
    sessionNotFoundError.status_code = 404 ∧
    get_session_history db caller sid limit =
      (db, Except.error sessionNotFoundError) ∧
    update_session_title db caller sid newTitle =
      (db, Except.error sessionNotFoundError) ∧
    delete_session db caller sid = (db, Except.error sessionNotFoundError) ∧
    add_message_to_session llm now db caller sid question =
      (db, Except.error sessionNotFoundError) := by
  have hf := findOwnedSession_eq_none db sid caller.id h
  refine ⟨rfl, ?_, ?_, ?_, ?_⟩ <;>
    simp [get_session_history, update_session_title, delete_session,
          add_message_to_session, hf]

/-- Witness for C1: in the fixture database, session 1 is owned by user 2, so
all four operations by Alice (user 1) fail with the 404 error and return the
database unchanged. -/
theorem C1_unowned_session_ops_fail_witness :
    (∀ s ∈ dbUnowned.sessions, s.id = 1 → s.user_id ≠ userAlice.id) ∧
    (sessionNotFoundError.status_code = 404 ∧
     get_session_history dbUnowned userAlice 1 50 =
       (dbUnowned, Except.error sessionNotFoundError) ∧
     update_session_title dbUnowned userAlice 1 "New title" =
       (dbUnowned, Except.error sessionNotFoundError) ∧
     delete_session dbUnowned userAlice 1 =
       (dbUnowned, Except.error sessionNotFoundError) ∧
     add_message_to_session (fun _ => LLMOutcome.malformed) 5 dbUnowned
         userAlice 1 "What is 2+2?" =
       (dbUnowned, Except.error sessionNotFoundError)) :=
  ⟨by decide,
   C1_unowned_session_ops_fail dbUnowned userAlice 1 50 "New title"
     "What is 2+2?" (fun _ => LLMOutcome.malformed) 5 (by decide)⟩

/-- C6: a signup whose email already belongs to an existing user row fails
with the 400 Conflict error and returns the database unchanged. -/
theorem C6_duplicate_email_signup_conflict (hash_password : String → String)
    (now : Nat) (db : DB) (req : UserSignup) (u : UserRow)
    (hmem : u ∈ db.users) (hemail : u.email = req.email) :
    signup hash_password now db req =
      (db, Except.error { status_code := 400,
                          detail := "Email already registered" }) := by
  have hsome : (db.users.find? (fun v => v.email == req.email)).isSome := by
    rw [List.find?_isSome]
    exact ⟨u, hmem, by simp [hemail]⟩
  obtain ⟨v, hv⟩ := Option.isSome_iff_exists.mp hsome
  simp [signup, hv]

/-- Witness for C6: signing up again with Alice's email in the fixture
database fails with Conflict and changes nothing. -/
theorem C6_duplicate_email_signup_conflict_witness :
    userAlice ∈ dbUnowned.users ∧
    userAlice.email = "alice@example.com" ∧
    signup (fun p => p) 7 dbUnowned
        { name := "A2", email := "alice@example.com", password := "pw",
          bio := none, explanation_level := none } =
      (dbUnowned, Except.error { status_code := 400,
                                 detail := "Email already registered" }) :=
  ⟨by decide, rfl,
   C6_duplicate_email_signup_conflict (fun p => p) 7 dbUnowned
     { name := "A2", email := "alice@example.com", password := "pw",
       bio := none, explanation_level := none } userAlice (by decide) rfl⟩

/-- Helper: when no existing user has the requested email, the duplicate-email
query of signup finds nothing. -/
theorem find_email_eq_none (db : DB) (email : String)
    (h : ∀ u ∈ db.users, u.email ≠ email) :
    db.users.find? (fun u => u.email == email) = none := by
  rw [List.find?_eq_none]
  intro u hu
  simpa using h u hu

/-- C5: a signup with an email not already registered appends exactly one User
row, carrying the hashed password, appends exactly one default ChatSession
owned by the new user, and returns the success message. -/
theorem C5_signup_fresh_email_creates_user_and_session
    (hash_password : String → String) (now : Nat) (db : DB) (req : UserSignup)
    (h : ∀ u ∈ db.users, u.email ≠ req.email) :
    ∃ newUser firstSession,
      (signup hash_password now db req).2 =
        Except.ok "User created successfully" ∧
      (signup hash_password now db req).1.users = db.users ++ [newUser] ∧
      newUser.email = req.email ∧
      newUser.name = req.name ∧
      newUser.password = hash_password req.password ∧
      (signup hash_password now db req).1.sessions =
        db.sessions ++ [firstSession] ∧
      firstSession.user_id = newUser.id ∧
      (signup hash_password now db req).1.chats = db.chats := by
  have hf := find_email_eq_none db req.email h
  refine ⟨{ id := db.nextUserId, name := req.name, email := req.email,
            password := hash_password req.password, bio := req.bio,
            explanation_level :=
              some (match req.explanation_level with
                    | some l => l
                    | none => 2) },
          { id := db.nextSessionId, user_id := db.nextUserId,
            title := "Chat " ++ toString
              ((db.sessions.filter
                  (fun s => s.user_id == db.nextUserId)).length + 1),
            created_at := now },
          ?_, ?_, rfl, rfl, rfl, ?_, rfl, ?_⟩ <;>
    simp [signup, hf]

/-- Witness for C5: signing up a fresh email against the fixture database
creates the user row and its single default session and reports success. -/
theorem C5_signup_fresh_email_creates_user_and_session_witness :
    (∀ u ∈ dbUnowned.users, u.email ≠ "carol@example.com") ∧
    (∃ newUser firstSession,
      (signup (fun p => p ++ "#h") 9 dbUnowned
          { name := "Carol", email := "carol@example.com", password := "pw",
            bio := none, explanation_level := some 3 }).2 =
        Except.ok "User created successfully" ∧
      (signup (fun p => p ++ "#h") 9 dbUnowned
          { name := "Carol", email := "carol@example.com", password := "pw",
            bio := none, explanation_level := some 3 }).1.users =
        dbUnowned.users ++ [newUser] ∧
      newUser.email = "carol@example.com" ∧
      newUser.name = "Carol" ∧
      newUser.password = (fun p => p ++ "#h") "pw" ∧
      (signup (fun p => p ++ "#h") 9 dbUnowned
          { name := "Carol", email := "carol@example.com", password := "pw",
            bio := none, explanation_level := some 3 }).1.sessions =
        dbUnowned.sessions ++ [firstSession] ∧
      firstSession.user_id = newUser.id ∧
      (signup (fun p => p ++ "#h") 9 dbUnowned
          { name := "Carol", email := "carol@example.com", password := "pw",
            bio := none, explanation_level := some 3 }).1.chats =
        dbUnowned.chats) :=
  ⟨by decide,
   C5_signup_fresh_email_creates_user_and_session (fun p => p ++ "#h") 9
     dbUnowned
     { name := "Carol", email := "carol@example.com", password := "pw",
       bio := none, explanation_level := some 3 }
     (by decide)⟩

/-- C8: a session created for a caller who has k sessions at creation time is
titled "Chat (k+1)": explicitly via create_session, and at signup, where the
new user owns no sessions yet (k = 0), the default session is titled
"Chat 1". -/
theorem C8_sequential_session_titles (db : DB) (caller : UserRow) (now : Nat)
    (hash_password : String → String) (req : UserSignup)
    (hemail : ∀ u ∈ db.users, u.email ≠ req.email)
    (hfresh : db.sessions.filter (fun s => s.user_id == db.nextUserId) = []) :
    (∃ s, (create_session now db caller).2 = Except.ok s ∧
       s.user_id = caller.id ∧
       (create_session now db caller).1.sessions = db.sessions ++ [s] ∧
       s.title = "Chat " ++ toString
         ((db.sessions.filter (fun t => t.user_id == caller.id)).length + 1)) ∧
    (∃ s, (signup hash_password now db req).1.sessions = db.sessions ++ [s] ∧
       s.user_id = db.nextUserId ∧
       s.title = "Chat 1") := by
  have hf := find_email_eq_none db req.email hemail
  constructor
  · exact ⟨_, rfl, rfl, rfl, rfl⟩
  · refine ⟨{ id := db.nextSessionId, user_id := db.nextUserId,
              title := "Chat " ++ toString
                ((db.sessions.filter
                    (fun s => s.user_id == db.nextUserId)).length + 1),
              created_at := now }, ?_, rfl, ?_⟩
    · simp [signup, hf]
    · rw [hfresh]
      rfl

/-- Witness for C8: Bob already owns one session in the fixture database, so
his next session is titled "Chat 2"; a fresh signup gets "Chat 1". -/
theorem C8_sequential_session_titles_witness :
    (∀ u ∈ dbUnowned.users, u.email ≠ "dave@example.com") ∧
    (dbUnowned.sessions.filter
        (fun s => s.user_id == dbUnowned.nextUserId) = []) ∧
    ((∃ s, (create_session 11 dbUnowned userBob).2 = Except.ok s ∧
        s.user_id = userBob.id ∧
        (create_session 11 dbUnowned userBob).1.sessions =
          dbUnowned.sessions ++ [s] ∧
        s.title = "Chat " ++ toString
          ((dbUnowned.sessions.filter
              (fun t => t.user_id == userBob.id)).length + 1)) ∧
     (∃ s, (signup (fun p => p) 11 dbUnowned
          { name := "Dave", email := "dave@example.com", password := "pw",
            bio := none, explanation_level := none }).1.sessions =
          dbUnowned.sessions ++ [s] ∧
        s.user_id = dbUnowned.nextUserId ∧
        s.title = "Chat 1")) :=
  ⟨by decide, by decide,
   C8_sequential_session_titles dbUnowned userBob 11 (fun p => p)
     { name := "Dave", email := "dave@example.com", password := "pw",
       bio := none, explanation_level := none }
     (by decide) (by decide)⟩

/-- C7: system-prompt selection maps levels 1, 2, 3, 4 to the Concise,
Detailed, Elaborate and Comprehensive prompts; a null level and every integer
outside 1..4 select the level-2 Detailed prompt; and on an owned session the
add-message request succeeds whatever the caller's level value is (selection
is total, it never fails the request). -/
theorem C7_explanation_level_prompt_selection (u : UserRow) (l : Int)
    (llm : List ChatMessage → LLMOutcome) (now : Nat) (db : DB) (sid : Nat)
    (question : String) :
    (u.explanation_level = some 1 →
      get_system_prompt_for_user u = SYSTEM_PROMPT_CONCISE) ∧
    (u.explanation_level = some 2 →
      get_system_prompt_for_user u = SYSTEM_PROMPT_DETAILED) ∧
    (u.explanation_level = some 3 →
      get_system_prompt_for_user u = SYSTEM_PROMPT_ELABORATE) ∧
    (u.explanation_level = some 4 →
      get_system_prompt_for_user u = SYSTEM_PROMPT_COMPREHENSIVE) ∧
    (u.explanation_level = none →
      get_system_prompt_for_user u = SYSTEM_PROMPT_DETAILED) ∧
    (u.explanation_level = some l → l ∉ ([1, 2, 3, 4] : List Int) →
      get_system_prompt_for_user u = SYSTEM_PROMPT_DETAILED) ∧
    (∀ s, findOwnedSession db sid u.id = some s →
      ∃ c, (add_message_to_session llm now db u sid question).2 =
        Except.ok c) := by
  refine ⟨?_, ?_, ?_, ?_, ?_, ?_, ?_⟩
  · intro h; simp [get_system_prompt_for_user, h]
  · intro h; simp [get_system_prompt_for_user, h]
  · intro h; simp [get_system_prompt_for_user, h]
  · intro h; simp [get_system_prompt_for_user, h]
  · intro h; simp [get_system_prompt_for_user, h]
  · intro h hl
    simp only [List.mem_cons, List.not_mem_nil, or_false, not_or] at hl
    obtain ⟨h1, h2, h3, h4⟩ := hl
    simp [get_system_prompt_for_user, h, h1, h2, h3, h4]
  · intro s hs
    refine ⟨{ id := db.nextChatId, session_id := sid, question := question,
              answer := answerFromOutcome (llm (promptFor db u sid question)),
              timestamp := now }, ?_⟩
    simp [add_message_to_session, hs]

/-- Witness for C7: a user with the out-of-range level 7 gets the Detailed
prompt, and their add-message request on an owned session succeeds. -/
theorem C7_explanation_level_prompt_selection_witness :
    ({ userBob with explanation_level := some 7 : UserRow }.explanation_level
        = some 7) ∧
    ((7 : Int) ∉ ([1, 2, 3, 4] : List Int)) ∧
    (findOwnedSession dbUnowned 1
        { userBob with explanation_level := some 7 : UserRow }.id =
      some sessionOfBob) ∧
    get_system_prompt_for_user
        { userBob with explanation_level := some 7 : UserRow } =
      SYSTEM_PROMPT_DETAILED ∧
    (∃ c, (add_message_to_session (fun _ => LLMOutcome.ok "It is 4.") 13
        dbUnowned { userBob with explanation_level := some 7 : UserRow } 1
        "What is 2+2?").2 = Except.ok c) :=
  ⟨rfl, by decide, by decide,
   (C7_explanation_level_prompt_selection
      { userBob with explanation_level := some 7 } 7
      (fun _ => LLMOutcome.ok "It is 4.") 13 dbUnowned 1
      "What is 2+2?").2.2.2.2.2.1 rfl (by decide),
   (C7_explanation_level_prompt_selection
      { userBob with explanation_level := some 7 } 7
      (fun _ => LLMOutcome.ok "It is 4.") 13 dbUnowned 1
      "What is 2+2?").2.2.2.2.2.2 sessionOfBob (by decide)⟩

/-- C10: a successful rename of an owned session changes only the title: the
returned row keeps the session's id, owner and creation time with the new
title, the users and chats tables are untouched, the sessions table keeps its
length, every session row keeps its id, owner and creation time, and every
row other than the target is entirely unchanged. -/
theorem C10_rename_only_changes_title (db : DB) (caller : UserRow) (sid : Nat)
    (newTitle : String) (s : ChatSessionRow)
    (h : findOwnedSession db sid caller.id = some s) :
    (∃ s2, (update_session_title db caller sid newTitle).2 = Except.ok s2 ∧
       s2.id = s.id ∧ s2.user_id = s.user_id ∧ s2.created_at = s.created_at ∧
       s2.title = newTitle) ∧
    (update_session_title db caller sid newTitle).1.users = db.users ∧
    (update_session_title db caller sid newTitle).1.chats = db.chats ∧
    (update_session_title db caller sid newTitle).1.sessions.length =
      db.sessions.length ∧
    ∀ i (hi : i < db.sessions.length)
      (hi2 : i < (update_session_title db caller sid newTitle).1.sessions.length),
      ((update_session_title db caller sid newTitle).1.sessions[i]).id =
        (db.sessions[i]).id ∧
      ((update_session_title db caller sid newTitle).1.sessions[i]).user_id =
        (db.sessions[i]).user_id ∧
      ((update_session_title db caller sid newTitle).1.sessions[i]).created_at =
        (db.sessions[i]).created_at ∧
      (¬((db.sessions[i]).id = sid ∧ (db.sessions[i]).user_id = caller.id) →
        (update_session_title db caller sid newTitle).1.sessions[i] =
          db.sessions[i]) := by
  simp only [update_session_title, h]
  refine ⟨⟨{ s with title := newTitle }, rfl, rfl, rfl, rfl, rfl⟩,
          trivial, trivial, by simp, ?_⟩
  intro i _hi hi2
  simp only [List.getElem_map]
  by_cases hb : (db.sessions[i].id == sid && db.sessions[i].user_id ==
      caller.id) = true
  · rw [if_pos hb]
    exact ⟨rfl, rfl, rfl, fun hnc =>
      absurd (by simpa [Bool.and_eq_true, beq_iff_eq] using hb) hnc⟩
  · rw [if_neg hb]
    exact ⟨rfl, rfl, rfl, fun _ => rfl⟩

/-- Witness for C10: renaming Bob's session in the fixture database keeps all
other state identical and only changes the title of session 1. -/
theorem C10_rename_only_changes_title_witness :
    findOwnedSession dbUnowned 1 userBob.id = some sessionOfBob ∧
    ((∃ s2, (update_session_title dbUnowned userBob 1 "Algebra").2 =
        Except.ok s2 ∧
       s2.id = sessionOfBob.id ∧ s2.user_id = sessionOfBob.user_id ∧
       s2.created_at = sessionOfBob.created_at ∧ s2.title = "Algebra") ∧
     (update_session_title dbUnowned userBob 1 "Algebra").1.users =
       dbUnowned.users ∧
     (update_session_title dbUnowned userBob 1 "Algebra").1.chats =
       dbUnowned.chats ∧
     (update_session_title dbUnowned userBob 1 "Algebra").1.sessions.length =
       dbUnowned.sessions.length ∧
     ∀ i (hi : i < dbUnowned.sessions.length)
       (hi2 : i <
         (update_session_title dbUnowned userBob 1 "Algebra").1.sessions.length),
       ((update_session_title dbUnowned userBob 1 "Algebra").1.sessions[i]).id =
         (dbUnowned.sessions[i]).id ∧
       ((update_session_title dbUnowned userBob 1
           "Algebra").1.sessions[i]).user_id =
         (dbUnowned.sessions[i]).user_id ∧
       ((update_session_title dbUnowned userBob 1
           "Algebra").1.sessions[i]).created_at =
         (dbUnowned.sessions[i]).created_at ∧
       (¬((dbUnowned.sessions[i]).id = 1 ∧
           (dbUnowned.sessions[i]).user_id = userBob.id) →
         (update_session_title dbUnowned userBob 1 "Algebra").1.sessions[i] =
           dbUnowned.sessions[i])) :=
  ⟨by decide,
   C10_rename_only_changes_title dbUnowned userBob 1 "Algebra" sessionOfBob
     (by decide)⟩

/-- Predicate on an inference outcome: the call raised, or the completion was
structurally malformed, or its content was falsy (empty) — exactly the cases
where add_message_to_session substitutes a placeholder answer. -/
def llmCallFailed : LLMOutcome → Bool
  | LLMOutcome.ok content => content == ""
  | LLMOutcome.malformed => true
  | LLMOutcome.raises _ => true

/-- C4: when the inference collaborator raises or returns a malformed
completion on an owned session's add-message request, the handler still
succeeds: it returns a persisted Chat row holding the question and a
placeholder error string as the answer, appended to the chats table. -/
theorem C4_llm_failure_persists_placeholder
    (llm : List ChatMessage → LLMOutcome) (now : Nat) (db : DB)
    (caller : UserRow) (sid : Nat) (question : String) (s : ChatSessionRow)
    (h : findOwnedSession db sid caller.id = some s)
    (hfail : llmCallFailed (llm (promptFor db caller sid question)) = true) :
    ∃ c, (add_message_to_session llm now db caller sid question).2 =
        Except.ok c ∧
      c.question = question ∧
      (add_message_to_session llm now db caller sid question).1.chats =
        db.chats ++ [c] ∧
      (c.answer =
         "Sorry, I encountered an issue generating a response. Please try again."
       ∨ ∃ e, llm (promptFor db caller sid question) = LLMOutcome.raises e ∧
           c.answer =
             "Error during response generation. Please check logs. (Details: "
               ++ e ++ ")") := by
  refine ⟨{ id := db.nextChatId, session_id := sid, question := question,
            answer := answerFromOutcome (llm (promptFor db caller sid question)),
            timestamp := now },
          by simp [add_message_to_session, h], rfl,
          by simp [add_message_to_session, h], ?_⟩
  cases hout : llm (promptFor db caller sid question) with
  | ok content =>
      left
      rw [hout] at hfail
      have hc : content = "" := by simpa [llmCallFailed] using hfail
      simp [answerFromOutcome, hout, hc]
  | malformed =>
      left
      simp [answerFromOutcome, hout]
  | raises e =>
      right
      exact ⟨e, rfl, by simp [answerFromOutcome, hout]⟩

/-- Witness for C4: with a collaborator that always raises, Bob's add-message
request on his own session still succeeds and persists the error placeholder
as the answer. -/
theorem C4_llm_failure_persists_placeholder_witness :
    findOwnedSession dbUnowned 1 userBob.id = some sessionOfBob ∧
    llmCallFailed ((fun _ => LLMOutcome.raises "boom")
      (promptFor dbUnowned userBob 1 "What is 2+2?")) = true ∧
    (∃ c, (add_message_to_session (fun _ => LLMOutcome.raises "boom") 17
        dbUnowned userBob 1 "What is 2+2?").2 = Except.ok c ∧
      c.question = "What is 2+2?" ∧
      (add_message_to_session (fun _ => LLMOutcome.raises "boom") 17 dbUnowned
          userBob 1 "What is 2+2?").1.chats = dbUnowned.chats ++ [c] ∧
      (c.answer =
         "Sorry, I encountered an issue generating a response. Please try again."
       ∨ ∃ e, (fun _ => LLMOutcome.raises "boom")
             (promptFor dbUnowned userBob 1 "What is 2+2?") =
           LLMOutcome.raises e ∧
           c.answer =
             "Error during response generation. Please check logs. (Details: "
               ++ e ++ ")")) :=
  ⟨by decide, rfl,
   C4_llm_failure_persists_placeholder (fun _ => LLMOutcome.raises "boom") 17
     dbUnowned userBob 1 "What is 2+2?" sessionOfBob (by decide) rfl⟩

/-- Unconditional expansion of exchanges into user/assistant turn pairs: the
shape the history loop produces for exchanges that pass its truthiness
check. -/
def pairTurns : List ChatRow → List ChatMessage
  | [] => []
  | c :: rest => ChatMessage.mk "user" c.question ::
      ChatMessage.mk "assistant" c.answer :: pairTurns rest

/-- Helper: the history-expansion loop equals the unconditional pair
expansion of the exchanges whose question and answer are both non-empty. -/
theorem expandHistory_eq_pairTurns_filter (l : List ChatRow) :
    expandHistory l = pairTurns (l.filter
      (fun c => decide (c.question ≠ "" ∧ c.answer ≠ ""))) := by
  induction l with
  | nil => rfl
  | cons c rest ih =>
      by_cases hc : c.question ≠ "" ∧ c.answer ≠ ""
      · simp only [expandHistory, List.filter_cons]
        rw [if_pos hc, if_pos (by simpa using hc)]
        simp only [pairTurns]
        rw [ih]
      · simp only [expandHistory, List.filter_cons]
        rw [if_neg hc, if_neg (by simpa using hc)]
        exact ih

/-- Helper: when every exchange of the list has non-empty question and
answer, the history-expansion loop skips nothing. -/
theorem expandHistory_eq_pairTurns_of_nonempty (l : List ChatRow)
    (h : ∀ c ∈ l, c.question ≠ "" ∧ c.answer ≠ "") :
    expandHistory l = pairTurns l := by
  induction l with
  | nil => rfl
  | cons c rest ih =>
      have hc := h c (List.mem_cons_self c rest)
      simp only [expandHistory, if_pos hc, pairTurns]
      rw [ih (fun x hx => h x (List.mem_cons_of_mem c hx))]

/-- Helper: every message the history-expansion loop emits is a user turn or
an assistant turn. -/
theorem expandHistory_roles (l : List ChatRow) (m : ChatMessage)
    (hm : m ∈ expandHistory l) : m.role = "user" ∨ m.role = "assistant" := by
  induction l with
  | nil => simp [expandHistory] at hm
  | cons c rest ih =>
      unfold expandHistory at hm
      by_cases hc : c.question ≠ "" ∧ c.answer ≠ ""
      · rw [if_pos hc] at hm
        simp only [List.mem_cons] at hm
        rcases hm with h1 | h2 | h3
        · exact Or.inl (by rw [h1])
        · exact Or.inr (by rw [h2])
        · exact ih h3
      · rw [if_neg hc] at hm
        exact ih hm

/-- Number of messages of a given role in a prompt. -/
def countRole (r : String) (ms : List ChatMessage) : Nat :=
  (ms.filter (fun m => m.role == r)).length

/-- C9: every prompt built for an add-message request starts with exactly one
system message, ends with a user turn carrying exactly the new question, and
its middle consists precisely of the user/assistant pairs of the stored
window exchanges whose question and answer are both non-empty — exchanges
with an empty question or answer are silently omitted. -/
theorem C9_prompt_structure_invariant (db : DB) (caller : UserRow) (sid : Nat)
    (question : String) :
    promptFor db caller sid question =
      ChatMessage.mk "system" (get_system_prompt_for_user caller) ::
        (expandHistory (recentHistoryFor db sid) ++
          [ChatMessage.mk "user" question]) ∧
    (promptFor db caller sid question).head? =
      some (ChatMessage.mk "system" (get_system_prompt_for_user caller)) ∧
    (promptFor db caller sid question).getLast? =
      some (ChatMessage.mk "user" question) ∧
    countRole "system" (promptFor db caller sid question) = 1 ∧
    expandHistory (recentHistoryFor db sid) =
      pairTurns ((recentHistoryFor db sid).filter
        (fun c => decide (c.question ≠ "" ∧ c.answer ≠ ""))) ∧
    (∀ m ∈ expandHistory (recentHistoryFor db sid),
      m.role = "user" ∨ m.role = "assistant") := by
  have hroles := expandHistory_roles (recentHistoryFor db sid)
  refine ⟨rfl, rfl, ?_, ?_,
          expandHistory_eq_pairTurns_filter (recentHistoryFor db sid), hroles⟩
  · show (ChatMessage.mk "system" (get_system_prompt_for_user caller) ::
      (expandHistory (recentHistoryFor db sid) ++
        [ChatMessage.mk "user" question])).getLast? =
      some (ChatMessage.mk "user" question)
    rw [← List.cons_append, List.getLast?_concat]
  · show countRole "system"
      (ChatMessage.mk "system" (get_system_prompt_for_user caller) ::
        (expandHistory (recentHistoryFor db sid) ++
          [ChatMessage.mk "user" question])) = 1
    unfold countRole
    rw [List.filter_cons, List.filter_append]
    have hmid : (expandHistory (recentHistoryFor db sid)).filter
        (fun m => m.role == "system") = [] := by
      rw [List.filter_eq_nil_iff]
      intro m hm
      rcases hroles m hm with h1 | h1 <;> simp [h1]
    rw [hmid]
    simp

/-- Chat-row fixture builder for session 1. -/
def mkChat (i ts : Nat) (q a : String) : ChatRow :=
  { id := i, session_id := 1, question := q, answer := a, timestamp := ts }

/-- Fixture: Bob's session 1 holds three exchanges at timestamps 1, 2, 3. -/
def dbHist3 : DB :=
  { users := [userBob], sessions := [sessionOfBob],
    chats := [mkChat 1 1 "q1" "a1", mkChat 2 2 "q2" "a2",
              mkChat 3 3 "q3" "a3"],
    nextUserId := 3, nextSessionId := 2, nextChatId := 4 }

/-- Counterexample to C2: with three stored messages and limit 2, history
returns the two OLDEST messages (timestamps 1 and 2), not the two most
recent (timestamps 2 and 3) that the claim requires — the handler orders by
timestamp ascending and then applies the limit. -/
theorem C2_counterexample_returns_oldest :
    (get_session_history dbHist3 userBob 1 2).2 =
      Except.ok [mkChat 1 1 "q1" "a1", mkChat 2 2 "q2" "a2"] ∧
    [mkChat 1 1 "q1" "a1", mkChat 2 2 "q2" "a2"] ≠
      [mkChat 2 2 "q2" "a2", mkChat 3 3 "q3" "a3"] :=
  ⟨rfl, by decide⟩

/-- C2 amended: for every session owned by the caller, get session history
returns the `limit` OLDEST messages of that session (all of them when fewer
than `limit` exist), ordered oldest-first: the result is the length-limit
ascending-timestamp head of the session's messages, it is sorted by
timestamp, and each returned message is no newer than any omitted one. -/
theorem C2_amended_history_returns_oldest (db : DB) (caller : UserRow)
    (sid limit : Nat) (s : ChatSessionRow)
    (h : findOwnedSession db sid caller.id = some s) :
    ∃ l, (get_session_history db caller sid limit).2 = Except.ok l ∧
      l = (sortChatsByTs (sessionChats db sid)).take limit ∧
      l.length = min limit (sessionChats db sid).length ∧
      List.Sorted chatTsLE l ∧
      ∀ x ∈ l, ∀ y ∈ (sortChatsByTs (sessionChats db sid)).drop limit,
        x.timestamp ≤ y.timestamp := by
  have hs : List.Sorted chatTsLE (sortChatsByTs (sessionChats db sid)) :=
    List.sorted_insertionSort chatTsLE (sessionChats db sid)
  refine ⟨(sortChatsByTs (sessionChats db sid)).take limit,
          by simp [get_session_history, h], rfl, ?_, ?_, ?_⟩
  · rw [List.length_take]
    unfold sortChatsByTs
    rw [List.length_insertionSort]
  · exact List.Pairwise.sublist (List.take_sublist limit _) hs
  · have hsplit := hs
    rw [← List.take_append_drop limit (sortChatsByTs (sessionChats db sid)),
        List.Sorted, List.pairwise_append] at hsplit
    exact fun x hx y hy => hsplit.2.2 x hx y hy

/-- Witness for C2 amended: on the three-message fixture with limit 2 the
returned history is the two oldest messages, sorted oldest-first. -/
theorem C2_amended_history_returns_oldest_witness :
    findOwnedSession dbHist3 1 userBob.id = some sessionOfBob ∧
    (∃ l, (get_session_history dbHist3 userBob 1 2).2 = Except.ok l ∧
      l = (sortChatsByTs (sessionChats dbHist3 1)).take 2 ∧
      l.length = min 2 (sessionChats dbHist3 1).length ∧
      List.Sorted chatTsLE l ∧
      ∀ x ∈ l, ∀ y ∈ (sortChatsByTs (sessionChats dbHist3 1)).drop 2,
        x.timestamp ≤ y.timestamp) :=
  ⟨by decide,
   C2_amended_history_returns_oldest dbHist3 userBob 1 2 sessionOfBob
     (by decide)⟩

/-- Prompt builder following the words of the specification, for comparison
with the code's `promptFor` (refinement check of the window direction): the
system prompt, then the 10 MOST RECENT prior exchanges taken oldest-first and
expanded, then the new question as the final user turn. -/
def promptForSpecMostRecent (db : DB) (user : UserRow) (sid : Nat)
    (question : String) : List ChatMessage :=
  let sorted := sortChatsByTs (sessionChats db sid)
  ChatMessage.mk "system" (get_system_prompt_for_user user) ::
    (expandHistory (sorted.drop (sorted.length - 10)) ++
      [ChatMessage.mk "user" question])

/-- Fixture: Bob's session 1 holds eleven exchanges at timestamps 1..11, all
with non-empty question and answer. -/
def dbHist11 : DB :=
  { users := [userBob], sessions := [sessionOfBob],
    chats := [mkChat 1 1 "q1" "a1", mkChat 2 2 "q2" "a2",
              mkChat 3 3 "q3" "a3", mkChat 4 4 "q4" "a4",
              mkChat 5 5 "q5" "a5", mkChat 6 6 "q6" "a6",
              mkChat 7 7 "q7" "a7", mkChat 8 8 "q8" "a8",
              mkChat 9 9 "q9" "a9", mkChat 10 10 "q10" "a10",
              mkChat 11 11 "q11" "a11"],
    nextUserId := 3, nextSessionId := 2, nextChatId := 12 }

set_option maxRecDepth 20000 in
/-- Counterexample to C3: with eleven stored exchanges, the prompt the code
builds keeps the ten OLDEST exchanges — it contains the user turn of the
oldest exchange (q1) and omits the user turn of the most recent one (q11),
so it differs from the spec-worded prompt built from the ten most recent
exchanges. -/
theorem C3_counterexample_window_keeps_oldest :
    ChatMessage.mk "user" "q11" ∉ promptFor dbHist11 userBob 1 "qnew" ∧
    ChatMessage.mk "user" "q1" ∈ promptFor dbHist11 userBob 1 "qnew" ∧
    ChatMessage.mk "user" "q11" ∈
      promptForSpecMostRecent dbHist11 userBob 1 "qnew" ∧
    promptFor dbHist11 userBob 1 "qnew" ≠
      promptForSpecMostRecent dbHist11 userBob 1 "qnew" :=
  ⟨by decide, by decide, by decide, by decide⟩

/-- C3 amended: for an owned session whose stored exchanges all have
non-empty question and answer, the prompt sent to the collaborator is the
selected system prompt first, then up to 10 OLDEST prior exchanges of the
session taken oldest-first, each expanded into a user-turn/assistant-turn
pair, then the new question as the final user turn; and the persisted answer
comes from invoking the collaborator on exactly that list. -/
theorem C3_amended_prompt_uses_oldest_window (db : DB) (caller : UserRow)
    (sid : Nat) (question : String) (s : ChatSessionRow)
    (h : findOwnedSession db sid caller.id = some s)
    (hne : ∀ c ∈ sessionChats db sid, c.question ≠ "" ∧ c.answer ≠ "") :
    promptFor db caller sid question =
      ChatMessage.mk "system" (get_system_prompt_for_user caller) ::
        (pairTurns ((sortChatsByTs (sessionChats db sid)).take 10) ++
          [ChatMessage.mk "user" question]) ∧
    ∀ llm now, ∃ c,
      (add_message_to_session llm now db caller sid question).2 =
        Except.ok c ∧
      c.answer = answerFromOutcome (llm
        (ChatMessage.mk "system" (get_system_prompt_for_user caller) ::
          (pairTurns ((sortChatsByTs (sessionChats db sid)).take 10) ++
            [ChatMessage.mk "user" question]))) := by
  have hwin : ∀ c ∈ (sortChatsByTs (sessionChats db sid)).take 10,
      c.question ≠ "" ∧ c.answer ≠ "" := by
    intro c hc
    apply hne
    have h1 : c ∈ sortChatsByTs (sessionChats db sid) :=
      List.take_subset 10 _ hc
    unfold sortChatsByTs at h1
    exact (List.mem_insertionSort chatTsLE).mp h1
  have hshape : promptFor db caller sid question =
      ChatMessage.mk "system" (get_system_prompt_for_user caller) ::
        (pairTurns ((sortChatsByTs (sessionChats db sid)).take 10) ++
          [ChatMessage.mk "user" question]) := by
    unfold promptFor recentHistoryFor
    rw [expandHistory_eq_pairTurns_of_nonempty _ hwin]
  refine ⟨hshape, ?_⟩
  intro llm now
  refine ⟨{ id := db.nextChatId, session_id := sid, question := question,
            answer := answerFromOutcome (llm (promptFor db caller sid question)),
            timestamp := now },
          by simp [add_message_to_session, h], ?_⟩
  rw [← hshape]

/-- Witness for C3 amended: on the three-exchange fixture the prompt is the
system prompt, the three exchanges oldest-first as turn pairs, and the new
question last, and a successful collaborator answer is persisted verbatim. -/
theorem C3_amended_prompt_uses_oldest_window_witness :
    findOwnedSession dbHist3 1 userBob.id = some sessionOfBob ∧
    (∀ c ∈ sessionChats dbHist3 1, c.question ≠ "" ∧ c.answer ≠ "") ∧
    (promptFor dbHist3 userBob 1 "qnew" =
      ChatMessage.mk "system" (get_system_prompt_for_user userBob) ::
        (pairTurns ((sortChatsByTs (sessionChats dbHist3 1)).take 10) ++
          [ChatMessage.mk "user" "qnew"]) ∧
     ∀ llm now, ∃ c,
      (add_message_to_session llm now dbHist3 userBob 1 "qnew").2 =
        Except.ok c ∧
      c.answer = answerFromOutcome (llm
        (ChatMessage.mk "system" (get_system_prompt_for_user userBob) ::
          (pairTurns ((sortChatsByTs (sessionChats dbHist3 1)).take 10) ++
            [ChatMessage.mk "user" "qnew"])))) :=
  ⟨by decide, by decide,
   C3_amended_prompt_uses_oldest_window dbHist3 userBob 1 "qnew" sessionOfBob
     (by decide) (by decide)⟩
